import Mathlib

/-!
Verification of the Bellezavari-Makeover booking system.

This file gives a shallow embedding of the availability engine
(`src/lib/availability.ts`), the Firestore booking store (`src/lib/db.ts`),
the Paystack webhook handler and the create-payment Netlify function, and
proves or refutes the testable properties of the specification against it.

Modelling conventions:
* JavaScript strings are Lean `String`s; character-level operations work on
  `String.data` (the underlying character list).
* `Number(s)` applied to the digit substrings produced by `"HH:MM".split(':')`
  is modelled by folding decimal digits (`digitsToNat`); behaviour on
  non-digit input is irrelevant to every claim and is mapped to a junk value,
  exactly as NaN poisons the downstream arithmetic in the source.
* A JavaScript `Date` is modelled as a record holding the values of the
  accessors the code actually reads (`getDay`, `getFullYear`, `getMonth`,
  `getDate`, `getHours`, `getMinutes`, `getTime`, and the date part of
  `toISOString`).  No coherence between the fields is assumed; the embedded
  functions read exactly the fields the source reads.
* Firestore collections are association lists from document id to document.
  `updateDoc` fails when the document is absent; `addDoc` inserts under a
  fresh auto-generated id, which the embedding takes as an explicit argument.
* The HMAC function, JSON parsing, the wall clock and the outbound fetch are
  effectful/external and are passed to the handlers as explicit parameters.
* Handlers additionally return the list of store/network calls they perform,
  so that "never calls X" claims are statements about that list.
-/

/-- Decimal digit characters, used to state validity of "HH:MM" strings. -/
def digitChars : List Char := ['0', '1', '2', '3', '4', '5', '6', '7', '8', '9']

/-- Is `c` a decimal digit character. -/
def isDig (c : Char) : Bool := digitChars.contains c

/-- Numeric value of a digit character (models decimal parsing of one char). -/
def digitVal (c : Char) : Nat := c.toNat - 48

/-- The digit character for `n ≤ 9`; models rendering one decimal digit of
`n.toString()`.  The catch-all branch is unreachable for the arguments the
embedding produces. -/
def digitChar (n : Nat) : Char :=
  match n with
  | 0 => '0' | 1 => '1' | 2 => '2' | 3 => '3' | 4 => '4'
  | 5 => '5' | 6 => '6' | 7 => '7' | 8 => '8' | _ => '9'

/-- Fuel-driven decimal rendering; `fuel` bounds the recursion depth so the
definition is structural (the caller passes `n` itself, which is enough). -/
def natDigitsAux : Nat → Nat → List Char
  | 0, n => [digitChar (n % 10)]
  | fuel + 1, n =>
    if n < 10 then [digitChar n]
    else natDigitsAux fuel (n / 10) ++ [digitChar (n % 10)]

/-- Decimal rendering of a natural number, models JavaScript `n.toString()`
for the natural numbers the time utilities produce. -/
def natDigits (n : Nat) : List Char := natDigitsAux n n

/-- Models `s.padStart(2, '0')` on the character list of `s`. -/
def padStart2 (cs : List Char) : List Char :=
  if cs.length ≥ 2 then cs else List.replicate (2 - cs.length) '0' ++ cs

/-- Models JavaScript `str.split(':')` on the character list of `str`. -/
def splitOnColon (cs : List Char) : List (List Char) :=
  match cs with
  | [] => [[]]
  | c :: rest =>
    if c == ':' then [] :: splitOnColon rest
    else
      match splitOnColon rest with
      | [] => [[c]]
      | piece :: pieces => (c :: piece) :: pieces

/-- Models `Number(s)` on the digit strings arising from valid "HH:MM" input:
fold the decimal digits.  (On non-digit input the source yields NaN; any junk
value works here since no claim touches that path.) -/
def digitsToNat (cs : List Char) : Nat :=
  cs.foldl (fun acc c => acc * 10 + digitVal c) 0

/-- Embeds `timeToMinutes` (availability.ts:36-39):
`const [hours, minutes] = time.split(':').map(Number); return hours*60+minutes`. -/
def timeToMinutes (time : String) : Nat :=
  match splitOnColon time.data with
  | h :: m :: _ => digitsToNat h * 60 + digitsToNat m
  | [h] => digitsToNat h * 60
  | [] => 0

/-- Embeds `minutesToTime` (availability.ts:48-52):
`hours = floor(minutes/60); mins = minutes % 60;` rendered as the template
string of the zero-padded hours, a colon, and the zero-padded minutes. -/
def minutesToTime (minutes : Nat) : String :=
  ⟨padStart2 (natDigits (minutes / 60)) ++ ':' :: padStart2 (natDigits (minutes % 60))⟩

/-- Validity of a time string, from the claim: zero-padded "HH:MM" with
hours 00-23 and minutes 00-59. -/
def isValidHHMM (t : String) : Bool :=
  match t.data with
  | [a, b, c, d, e] =>
    isDig a && isDig b && (c == ':') && isDig d && isDig e &&
    decide (10 * digitVal a + digitVal b ≤ 23) &&
    decide (10 * digitVal d + digitVal e ≤ 59)
  | _ => false

/-- Booking lifecycle states (`types/index.ts`, `Booking.bookingStatus`). -/
inductive BookingStatus where
  | pending | confirmed | completed | cancelled | noShow
deriving DecidableEq, Repr

/-- Payment states (`types/index.ts`, `Booking.paymentStatus`). -/
inductive PaymentStatus where
  | pending | paid | failed | refunded
deriving DecidableEq, Repr

/-- A JavaScript `Date`, modelled by the accessor values the source reads.
`month` is the 0-based `getMonth()`, `day` is `getDate()`, `dayOfWeek` is
`getDay()`, `isoDate` is `toISOString().split('T')[0]`, `midnightEpochMs` is
`getTime()` of the instant obtained by `setHours(0,0,0,0)`, and `epochMs` is
`getTime()` of the instant itself. -/
structure JSDate where
  year : Nat
  month : Nat
  day : Nat
  dayOfWeek : Nat
  isoDate : String
  hours : Nat
  minutes : Nat
  midnightEpochMs : Int
  epochMs : Int
deriving DecidableEq, Repr

/-- The fields of a `Booking` read by the availability engine; the remaining
fields (client details, monetary breakdown, timestamps, ...) are never read
by the functions verified here and are omitted. -/
structure Booking where
  startTime : JSDate
  endTime : JSDate
  bookingStatus : BookingStatus
deriving DecidableEq, Repr

/-- Computed availability of one candidate start time (`types/index.ts`
`TimeSlot`). -/
structure TimeSlot where
  time : String
  isAvailable : Bool
  reason : Option String := none
deriving DecidableEq, Repr

/-- Working hours for one day of the week (`types/index.ts` `WorkingHours`). -/
structure WorkingHours where
  dayOfWeek : Nat
  isOpen : Bool
  openTime : String
  closeTime : String
deriving DecidableEq, Repr

/-- The business settings fields read by the availability engine
(`data/settings.ts`); display/location/currency fields are never read here
and are omitted. -/
structure Settings where
  workingHours : List WorkingHours
  offDays : List String
  bufferMinutes : Nat
deriving DecidableEq, Repr

/-- The concrete settings value of the repository (`data/settings.ts`):
Sunday closed, Monday-Friday 09:00-19:00, Saturday 09:00-17:00, no off days,
30-minute buffer. -/
def settings : Settings :=
  { workingHours :=
      [ ⟨0, false, "09:00", "18:00"⟩
      , ⟨1, true, "09:00", "19:00"⟩
      , ⟨2, true, "09:00", "19:00"⟩
      , ⟨3, true, "09:00", "19:00"⟩
      , ⟨4, true, "09:00", "19:00"⟩
      , ⟨5, true, "09:00", "19:00"⟩
      , ⟨6, true, "09:00", "17:00"⟩ ]
  , offDays := []
  , bufferMinutes := 30 }

/-- The fields of a `Service` read by the availability engine
(`types/index.ts` `Service`); price/category/description fields are unread. -/
structure Service where
  id : String
  name : String
  durationMinutes : Nat
  allowedStartTimes : List String
deriving DecidableEq, Repr

/-- Catalog entry `knotless-braids-small` (`data/services.ts`): an 8-hour
service restricted to a single 09:00 start. -/
def knotlessBraidsSmall : Service :=
  ⟨"knotless-braids-small", "Small Knotless Braids", 480, ["09:00"]⟩

/-- Catalog entry `knotless-braids-large` (`data/services.ts`): a 4-hour
service with three allowed starts. -/
def knotlessBraidsLarge : Service :=
  ⟨"knotless-braids-large", "Large Knotless Braids", 240, ["09:00", "11:00", "13:00"]⟩

/-- Embeds `wouldEndWithinWorkingHours` (availability.ts:67-76). -/
def wouldEndWithinWorkingHours (startTime : String) (durationMinutes : Nat)
    (closeTime : String) : Bool :=
  timeToMinutes startTime + durationMinutes ≤ timeToMinutes closeTime

/-- Embeds `hasBookingConflict` (availability.ts:89-134): filter the bookings
to confirmed/pending ones on the candidate's calendar date, then report a
conflict when the candidate range `[start, start+duration+buffer)` meets an
existing range `[bookingStart, bookingEnd+buffer)` under the source's
three-disjunct overlap test. -/
def hasBookingConflict (date : JSDate) (startTime : String)
    (durationMinutes : Nat) (existingBookings : List Booking)
    (bufferMinutes : Nat) : Bool :=
  let dateStr := date.isoDate
  let startMinutes := timeToMinutes startTime
  let endMinutes := startMinutes + durationMinutes + bufferMinutes
  let dayBookings := existingBookings.filter fun booking =>
    decide (booking.startTime.isoDate = dateStr) &&
    (decide (booking.bookingStatus = BookingStatus.confirmed) ||
     decide (booking.bookingStatus = BookingStatus.pending))
  dayBookings.any fun booking =>
    let bookingStartMinutes := booking.startTime.hours * 60 + booking.startTime.minutes
    let bookingEndMinutes := booking.endTime.hours * 60 + booking.endTime.minutes + bufferMinutes
    (decide (startMinutes ≥ bookingStartMinutes) && decide (startMinutes < bookingEndMinutes)) ||
    (decide (endMinutes > bookingStartMinutes) && decide (endMinutes ≤ bookingEndMinutes)) ||
    (decide (startMinutes ≤ bookingStartMinutes) && decide (endMinutes ≥ bookingEndMinutes))

/-- Embeds `hasTimePassed` (availability.ts:144-165).  `now` is the value of
`new Date()`.  The source re-splits `time` with the same
`split(':').map(Number)` idiom; the slot instant is the booking date at that
hour/minute and the cutoff is two hours past `now`. -/
def hasTimePassed (now : JSDate) (date : JSDate) (time : String) : Bool :=
  if date.day ≠ now.day || date.month ≠ now.month || date.year ≠ now.year then
    false
  else
    let slotMs := date.midnightEpochMs + (timeToMinutes time : Int) * 60000
    decide (slotMs < now.epochMs + 2 * 60 * 60 * 1000)

/-- The body of the per-start-time loop of `getAvailableTimeSlots`
(availability.ts:212-255): each iteration pushes exactly one slot, with the
first failing check of the fixed chain recorded as the reason. -/
def slotFor (stg : Settings) (now : JSDate) (service : Service) (date : JSDate)
    (existingBookings : List Booking) (workingDay : WorkingHours)
    (startTime : String) : TimeSlot :=
  if timeToMinutes startTime < timeToMinutes workingDay.openTime then
    ⟨startTime, false, some "Before opening time"⟩
  else if !wouldEndWithinWorkingHours startTime service.durationMinutes workingDay.closeTime then
    ⟨startTime, false, some "Service would end after closing"⟩
  else if hasTimePassed now date startTime then
    ⟨startTime, false, some "Time has passed"⟩
  else if hasBookingConflict date startTime service.durationMinutes existingBookings stg.bufferMinutes then
    ⟨startTime, false, some "Already booked"⟩
  else
    ⟨startTime, true, none⟩

/-- Embeds `getAvailableTimeSlots` (availability.ts:188-258).  The module
global `settings` and the wall clock are explicit parameters. -/
def getAvailableTimeSlots (stg : Settings) (now : JSDate) (service : Service)
    (date : JSDate) (existingBookings : List Booking) : List TimeSlot :=
  match stg.workingHours.find? (fun wh => wh.dayOfWeek == date.dayOfWeek) with
  | none => []
  | some workingDay =>
    if !workingDay.isOpen then []
    else if stg.offDays.contains date.isoDate then []
    else service.allowedStartTimes.map
      (slotFor stg now service date existingBookings workingDay)

/-- A document of the `processedPayments` Firestore collection as written by
`markPaymentProcessed` (db.ts): `reference` is present only on the `addDoc`
path, which stores it as a field. -/
structure ProcessedPaymentDoc where
  reference : Option String
  bookingId : String
  processedAt : Nat
deriving DecidableEq, Repr

/-- The `processedPayments` collection: association list from Firestore
document id to document. -/
abbrev PPStore := List (String × ProcessedPaymentDoc)

/-- Look up the document whose id equals `docId` (Firestore `getDoc` on
`doc(db, coll, docId)`). -/
def ppFind (st : PPStore) (docId : String) : Option (String × ProcessedPaymentDoc) :=
  st.find? (fun p => p.1 == docId)

/-- Embeds `isPaymentProcessed` (db.ts:261-265): `getDoc` on the document
keyed by the payment reference; true iff it exists. -/
def isPaymentProcessed (reference : String) (st : PPStore) : Bool :=
  (ppFind st reference).isSome

/-- Embeds `markPaymentProcessed` (db.ts:274-290): `updateDoc` on the
document keyed by the reference, which sets `bookingId`/`processedAt` when
that document exists and throws otherwise; the `.catch` fallback then runs
`addDoc`, creating a document under a fresh auto-generated id (`autoId`)
whose fields include the reference.  `now` is `Timestamp.now()`. -/
def markPaymentProcessed (autoId : String) (now : Nat) (reference : String)
    (bookingId : String) (st : PPStore) : PPStore :=
  if (ppFind st reference).isSome then
    st.map fun p =>
      if p.1 == reference then (p.1, { p.2 with bookingId := bookingId, processedAt := now })
      else p
  else
    st ++ [(autoId, ⟨some reference, bookingId, now⟩)]

/-- A document of the `bookings` collection, restricted to the fields that
`updateBookingStatus` touches; the other booking fields are never read or
written by the operations verified here. -/
structure BookingDoc where
  bookingStatus : BookingStatus
  paymentStatus : PaymentStatus
  paymentReference : String
  updatedAt : Nat
deriving DecidableEq, Repr

/-- The `bookings` collection: association list from document id to
document. -/
abbrev BookingsStore := List (String × BookingDoc)

/-- Document lookup by booking id. -/
def findBookingDoc (st : BookingsStore) (bookingId : String) : Option BookingDoc :=
  (st.find? (fun p => p.1 == bookingId)).map (·.2)

/-- The field update `updateBookingStatus` writes: the requested status plus
`updatedAt`, and - when a truthy (non-empty) payment reference is supplied -
also `paymentReference` and `paymentStatus := paid`. -/
def applyStatusUpdate (status : BookingStatus) (paymentReference : Option String)
    (now : Nat) (d : BookingDoc) : BookingDoc :=
  let d1 := { d with bookingStatus := status, updatedAt := now }
  if paymentReference.getD "" ≠ "" then
    { d1 with paymentReference := paymentReference.getD "", paymentStatus := PaymentStatus.paid }
  else d1

/-- Embeds `updateBookingStatus` (db.ts:160-179): an unconditional
`updateDoc` of the requested status (plus payment fields when a reference is
given).  Firestore's `updateDoc` rejects when the document does not exist,
modelled as `none`. -/
def updateBookingStatus (bookingId : String) (status : BookingStatus)
    (paymentReference : Option String) (now : Nat) (st : BookingsStore) :
    Option BookingsStore :=
  if (findBookingDoc st bookingId).isSome then
    some (st.map fun p =>
      if p.1 == bookingId then (p.1, applyStatusUpdate status paymentReference now p.2)
      else p)
  else none

/-- Embeds `cancelBooking` (db.ts:301-303). -/
def cancelBooking (bookingId : String) (now : Nat) (st : BookingsStore) :
    Option BookingsStore :=
  updateBookingStatus bookingId BookingStatus.cancelled none now st

/-- Embeds `completeBooking` (db.ts:308-310). -/
def completeBooking (bookingId : String) (now : Nat) (st : BookingsStore) :
    Option BookingsStore :=
  updateBookingStatus bookingId BookingStatus.completed none now st

/-- Embeds `markNoShow` (db.ts:316-318). -/
def markNoShow (bookingId : String) (now : Nat) (st : BookingsStore) :
    Option BookingsStore :=
  updateBookingStatus bookingId BookingStatus.noShow none now st

/-- The transition relation the specification asserts for `bookingStatus`:
pending→confirmed, any→cancelled, confirmed→completed, confirmed→no-show.
Written from the spec's words, to compare against what the code enforces. -/
def specAllowedTransition (a b : BookingStatus) : Bool :=
  match a, b with
  | BookingStatus.pending, BookingStatus.confirmed => true
  | _, BookingStatus.cancelled => true
  | BookingStatus.confirmed, BookingStatus.completed => true
  | BookingStatus.confirmed, BookingStatus.noShow => true
  | _, _ => false

/-- An inbound Netlify function invocation: method, the
`x-paystack-signature` header, and the raw body (absent bodies model
`event.body == null`). -/
structure HandlerEvent where
  httpMethod : String
  signatureHeader : Option String
  body : Option String
deriving DecidableEq, Repr

/-- Shape of the JSON bodies the handlers serialize, one constructor per
object shape appearing in the source (so no JSON printer needs modelling). -/
inductive RespBody where
  | empty
  | err (msg : String)
  | msg (m : String)
  | msgRef (m reference : String)
  | paymentLink (authorizationUrl accessCode reference : String)
deriving DecidableEq, Repr

/-- An HTTP response of a handler. -/
structure HandlerResponse where
  statusCode : Nat
  body : RespBody
deriving DecidableEq, Repr

/-- Webhook payload metadata; only `bookingId`/`serviceId` are ever read (and
only for logging in the source). -/
structure WebhookMetadata where
  bookingId : Option String
  serviceId : Option String
deriving DecidableEq, Repr

/-- The `data` member of a Paystack webhook payload, restricted to fields the
handler reads outside of logging. -/
structure WebhookEventData where
  status : String
  reference : String
  metadata : WebhookMetadata
deriving DecidableEq, Repr

/-- The Paystack webhook envelope `{ event, data }`. -/
structure WebhookPayload where
  event : String
  data : WebhookEventData
deriving DecidableEq, Repr

/-- The observable store/parse calls a webhook invocation performs.  The
`updateStatus` constructor stands for a call to `updateBookingStatus`; the
source only contains that call inside a commented-out TODO, so the handler
below never emits it. -/
inductive DbCall where
  | jsonParsed (raw : String)
  | markProcessed (reference : String)
  | updateStatus (bookingId : String) (status : BookingStatus) (reference : String)
deriving DecidableEq, Repr

/-- True exactly on `DbCall.updateStatus` calls. -/
def DbCall.isUpdateStatus : DbCall → Bool
  | DbCall.updateStatus _ _ _ => true
  | _ => false

/-- Embeds `verifySignature` (webhook handler): the hex HMAC-SHA512 of the
raw payload under the secret key must equal the provided signature.  `hmac`
is the (pure, uninterpreted) `crypto.createHmac('sha512', secret)` digest. -/
def verifySignature (hmac : String → String → String) (secret : String)
    (payload signature : String) : Bool :=
  hmac secret payload == signature

/-- Embeds the Paystack webhook `handler`
(netlify functions `paystack-webhook`): reject non-POST (405), reject a
missing or invalid signature before any parsing (401), respond 500 when
`JSON.parse` throws (`parse` returns `none`), and on a `charge.success`
event check the in-memory `processedReferences` set first, mark the
reference processed before anything else when the inner status is
"success", and acknowledge everything else with 200.  Returns the response,
the new `processedReferences` set, and the calls performed.  (The source's
`setTimeout` eviction of the set after one hour is outside this model.) -/
def paystackWebhook (hmac : String → String → String) (secret : String)
    (parse : String → Option WebhookPayload) (req : HandlerEvent)
    (processed : List String) :
    HandlerResponse × List String × List DbCall :=
  if req.httpMethod ≠ "POST" then
    (⟨405, RespBody.err "Method not allowed"⟩, processed, [])
  else
    match req.signatureHeader with
    | none => (⟨401, RespBody.err "Missing signature"⟩, processed, [])
    | some signature =>
      let payload := req.body.getD ""
      if !verifySignature hmac secret payload signature then
        (⟨401, RespBody.err "Invalid signature"⟩, processed, [])
      else
        match parse payload with
        | none => (⟨500, RespBody.err "Internal server error"⟩, processed,
                   [DbCall.jsonParsed payload])
        | some w =>
          if w.event = "charge.success" then
            if processed.contains w.data.reference then
              (⟨200, RespBody.msg "Already processed"⟩, processed,
               [DbCall.jsonParsed payload])
            else if w.data.status = "success" then
              (⟨200, RespBody.msgRef "Payment processed successfully" w.data.reference⟩,
               w.data.reference :: processed,
               [DbCall.jsonParsed payload, DbCall.markProcessed w.data.reference])
            else
              (⟨200, RespBody.msg "Event received"⟩, processed,
               [DbCall.jsonParsed payload])
          else
            (⟨200, RespBody.msg "Event received"⟩, processed,
             [DbCall.jsonParsed payload])

/-- The parsed create-payment request body.  JavaScript destructuring of a
sparse JSON object makes every field possibly-undefined; undefined strings
are modelled as `""` and an undefined amount as `0`, which have exactly the
same truthiness the validation relies on.  `amount` is a JavaScript number
in major currency units, modelled as a rational. -/
structure CreatePaymentRequest where
  email : String
  amount : Rat
  bookingId : String
  serviceId : String
  serviceName : String
  clientName : String
deriving DecidableEq, Repr

/-- The parsed response of Paystack's transaction-initialize endpoint. -/
structure PaystackInitData where
  authorizationUrl : String
  accessCode : String
  reference : String
deriving DecidableEq, Repr

/-- Envelope of the Paystack initialize response. -/
structure PaystackInitResponse where
  status : Bool
  message : String
  data : PaystackInitData
deriving DecidableEq, Repr

/-- The one outbound network call of the create-payment handler, with the
request fields the claims talk about. -/
inductive NetCall where
  | paystackInit (email : String) (amountMinor : Int) (currency reference : String)
      (bookingId serviceId : String)
deriving DecidableEq, Repr

/-- Models JavaScript `Math.round` on the (finite) numbers at play. -/
def jsRound (q : Rat) : Int := (q + 1 / 2).floor

/-- Embeds the create-payment `handler`
(netlify/functions/create-payment.ts): answer CORS preflight, reject
non-POST (405), parse the body (`parse` models `JSON.parse` applied to the
body, defaulting to the empty-object text when the body is null; `none`
models a parse throw, caught as 500), require truthy email,
amount, bookingId and serviceId (400 on failure, before any network call),
build the `BEL_<bookingId>_<nowMs>` reference, convert the amount to minor
units with `Math.round(amount * 100)`, and issue the one fetch.  `fetchResp
= none` models a network/JSON failure of the fetch, caught as 500. -/
def createPayment (parse : String → Option CreatePaymentRequest)
    (fetchResp : Option PaystackInitResponse) (nowMs : Nat)
    (req : HandlerEvent) : HandlerResponse × List NetCall :=
  if req.httpMethod = "OPTIONS" then
    (⟨200, RespBody.empty⟩, [])
  else if req.httpMethod ≠ "POST" then
    (⟨405, RespBody.err "Method not allowed"⟩, [])
  else
    match parse (req.body.getD "\x7b\x7d") with
    | none => (⟨500, RespBody.err "Internal server error"⟩, [])
    | some r =>
      if r.email = "" ∨ r.amount = 0 ∨ r.bookingId = "" ∨ r.serviceId = "" then
        (⟨400, RespBody.err "Missing required fields"⟩, [])
      else
        let reference := "BEL_" ++ r.bookingId ++ "_" ++ toString nowMs
        let amountMinor := jsRound (r.amount * 100)
        let call := NetCall.paystackInit r.email amountMinor "CAD" reference
          r.bookingId r.serviceId
        match fetchResp with
        | none => (⟨500, RespBody.err "Internal server error"⟩, [call])
        | some d =>
          if !d.status then
            (⟨400, RespBody.err
                (if d.message = "" then "Payment initialization failed" else d.message)⟩,
             [call])
          else
            (⟨200, RespBody.paymentLink d.data.authorizationUrl d.data.accessCode
                d.data.reference⟩,
             [call])

/-- 2026-10-11, a Sunday.  The epoch fields are never read on the code paths
exercised with this date (the clock comparison only fires when the booking
date equals the current date). -/
def sunday20261011 : JSDate := ⟨2026, 9, 11, 0, "2026-10-11", 0, 0, 0, 0⟩

/-- 2026-10-12, a Monday (same remark about the epoch fields). -/
def monday20261012 : JSDate := ⟨2026, 9, 12, 1, "2026-10-12", 0, 0, 0, 0⟩

/-- The `new Date()` instant used by the concrete witnesses: 2026-10-01,
a calendar day different from every booking date used below, so the same-day
two-hour cutoff is inert. -/
def nowClock : JSDate := ⟨2026, 9, 1, 4, "2026-10-01", 9, 0, 0, 0⟩

/-- A confirmed booking on Monday 2026-10-12 from 09:00 to 11:00. -/
def mondayBooking : Booking :=
  ⟨⟨2026, 9, 12, 1, "2026-10-12", 9, 0, 0, 0⟩,
   ⟨2026, 9, 12, 1, "2026-10-12", 11, 0, 0, 0⟩,
   BookingStatus.confirmed⟩

/-- C3: the claim asserts that after `markPaymentProcessed(ref, b)` the check
`isPaymentProcessed(ref)` returns true and a repeat call leaves the first
record in place.  The code stores the record via `addDoc` under a fresh
auto-generated id, while `isPaymentProcessed` reads the document keyed by the
reference, so the reference stays unprocessed and a second call appends a
second record with the second bookingId. -/
theorem markPaymentProcessed_leaves_reference_unprocessed :
    isPaymentProcessed "ref1" (markPaymentProcessed "autoId1" 10 "ref1" "b1" []) = false
    ∧ markPaymentProcessed "autoId2" 20 "ref1" "b2"
        (markPaymentProcessed "autoId1" 10 "ref1" "b1" [])
      = [("autoId1", ⟨some "ref1", "b1", 10⟩), ("autoId2", ⟨some "ref1", "b2", 20⟩)] := by
  decide

/-- A bookings store holding one completed booking, used to exhibit that the
status writer enforces no transition discipline. -/
def completedStore : BookingsStore :=
  [("b1", ⟨BookingStatus.completed, PaymentStatus.paid, "ref1", 0⟩)]

/-- C9 counterexample: `updateBookingStatus` happily moves a `completed`
booking back to `pending`, a transition outside the spec's allowed relation. -/
theorem updateBookingStatus_moves_completed_back_to_pending :
    updateBookingStatus "b1" BookingStatus.pending none 5 completedStore
      = some [("b1", ⟨BookingStatus.pending, PaymentStatus.paid, "ref1", 5⟩)]
    ∧ specAllowedTransition BookingStatus.completed BookingStatus.pending = false := by
  decide

/-- Updating the matched entry of an association list relocates through
`find?`: looking the key up afterwards sees the updated document. -/
theorem findBookingDoc_map_update (st : BookingsStore) (bookingId : String)
    (f : BookingDoc → BookingDoc) :
    findBookingDoc (st.map fun p => if p.1 == bookingId then (p.1, f p.2) else p) bookingId
      = (findBookingDoc st bookingId).map f := by
  induction st with
  | nil => rfl
  | cons hd tl ih =>
    by_cases hk : hd.1 == bookingId
    · simp [findBookingDoc, List.find?, hk]
    · simp only [List.map_cons, if_neg hk]
      simp only [findBookingDoc, List.find?] at ih ⊢
      rw [Bool.of_not_eq_true hk]
      exact ih

/-- C9 amended: the code enforces no transition relation at all -
`updateBookingStatus` writes exactly the requested status onto any existing
booking, whatever its current status (so backward moves succeed). -/
theorem updateBookingStatus_writes_requested_status (bookingId : String)
    (status : BookingStatus) (paymentReference : Option String) (now : Nat)
    (st : BookingsStore) (d : BookingDoc)
    (h : findBookingDoc st bookingId = some d) :
    ∃ st', updateBookingStatus bookingId status paymentReference now st = some st'
      ∧ (findBookingDoc st' bookingId).map (·.bookingStatus) = some status := by
  have hs : (findBookingDoc st bookingId).isSome := by rw [h]; rfl
  refine ⟨_, by unfold updateBookingStatus; rw [if_pos hs], ?_⟩
  rw [findBookingDoc_map_update, h]
  have : (applyStatusUpdate status paymentReference now d).bookingStatus = status := by
    unfold applyStatusUpdate
    split_ifs <;> rfl
  simp [this]

/-- Closed instance of the C9 amended theorem: confirming an existing booking
with a payment reference indeed lands it in `confirmed`. -/
theorem updateBookingStatus_writes_requested_status_witness :
    ∃ st', updateBookingStatus "b1" BookingStatus.confirmed (some "newref") 7 completedStore
        = some st'
      ∧ (findBookingDoc st' "b1").map (·.bookingStatus) = some BookingStatus.confirmed :=
  updateBookingStatus_writes_requested_status "b1" BookingStatus.confirmed (some "newref") 7
    completedStore ⟨BookingStatus.completed, PaymentStatus.paid, "ref1", 0⟩ (by decide)

/-- C5: when the working-hours entry for the date's weekday is absent or
closed, or the date is listed in `offDays`, the engine short-circuits to the
empty slot list. -/
theorem closed_day_returns_no_slots (stg : Settings) (now : JSDate)
    (service : Service) (date : JSDate) (bookings : List Booking)
    (h : stg.workingHours.find? (fun wh => wh.dayOfWeek == date.dayOfWeek) = none
       ∨ (∃ wd, stg.workingHours.find? (fun wh => wh.dayOfWeek == date.dayOfWeek) = some wd
            ∧ wd.isOpen = false)
       ∨ stg.offDays.contains date.isoDate = true) :
    getAvailableTimeSlots stg now service date bookings = [] := by
  unfold getAvailableTimeSlots
  rcases h with h | ⟨wd, h1, h2⟩ | h
  · rw [h]
  · rw [h1]; simp [h2]
  · have hmem : date.isoDate ∈ stg.offDays := by simpa using h
    cases hf : stg.workingHours.find? (fun wh => wh.dayOfWeek == date.dayOfWeek) with
    | none => rfl
    | some wd => cases hopen : wd.isOpen <;> simp [hopen, hmem]

/-- Closed instance of C5: the repository's settings close Sundays, so a
Sunday query yields no slots. -/
theorem closed_day_returns_no_slots_witness :
    getAvailableTimeSlots settings nowClock knotlessBraidsSmall sunday20261011 [] = [] :=
  closed_day_returns_no_slots settings nowClock knotlessBraidsSmall sunday20261011 []
    (Or.inr (Or.inl ⟨⟨0, false, "09:00", "18:00"⟩, by decide, rfl⟩))

/-- C4 counterexample: on a closed day the returned sequence is empty, so its
length differs from `allowedStartTimes.length`; the claim's quantification
over all dates fails. -/
theorem slot_count_differs_from_allowed_starts_on_closed_day :
    (getAvailableTimeSlots settings nowClock knotlessBraidsSmall sunday20261011 []).length
      ≠ knotlessBraidsSmall.allowedStartTimes.length := by
  decide

/-- C4 amended: on a date the business is open on (weekday entry present and
open, date not an off day), the engine returns one slot per allowed start
time, in the input order. -/
theorem open_day_slot_list_matches_allowed_starts (stg : Settings) (now : JSDate)
    (service : Service) (date : JSDate) (bookings : List Booking) (wd : WorkingHours)
    (hfind : stg.workingHours.find? (fun wh => wh.dayOfWeek == date.dayOfWeek) = some wd)
    (hopen : wd.isOpen = true)
    (hoff : stg.offDays.contains date.isoDate = false) :
    (getAvailableTimeSlots stg now service date bookings).map TimeSlot.time
        = service.allowedStartTimes
    ∧ (getAvailableTimeSlots stg now service date bookings).length
        = service.allowedStartTimes.length := by
  have hsl : getAvailableTimeSlots stg now service date bookings
      = service.allowedStartTimes.map (slotFor stg now service date bookings wd) := by
    have hmem : date.isoDate ∉ stg.offDays := by simpa using hoff
    unfold getAvailableTimeSlots
    rw [hfind]
    simp [hopen, hmem]
  have htime : ∀ t, (slotFor stg now service date bookings wd t).time = t := by
    intro t
    unfold slotFor
    split_ifs <;> rfl
  constructor
  · rw [hsl, List.map_map]
    calc service.allowedStartTimes.map
          (TimeSlot.time ∘ slotFor stg now service date bookings wd)
        = service.allowedStartTimes.map id :=
          List.map_congr_left (fun a _ => htime a)
      _ = service.allowedStartTimes := List.map_id _
  · rw [hsl, List.length_map]

/-- Closed instance of the C4 amended theorem: a Monday query for the 4-hour
braids service yields exactly its three allowed start times, in order. -/
theorem open_day_slot_list_matches_allowed_starts_witness :
    (getAvailableTimeSlots settings nowClock knotlessBraidsLarge monday20261012
        [mondayBooking]).map TimeSlot.time
      = knotlessBraidsLarge.allowedStartTimes
    ∧ (getAvailableTimeSlots settings nowClock knotlessBraidsLarge monday20261012
        [mondayBooking]).length
      = knotlessBraidsLarge.allowedStartTimes.length :=
  open_day_slot_list_matches_allowed_starts settings nowClock knotlessBraidsLarge
    monday20261012 [mondayBooking] ⟨1, true, "09:00", "19:00"⟩ (by decide) rfl rfl

/-- A concrete (stand-in) HMAC used by closed instances: tag the payload with
the secret.  Any function works; the handlers only compare its output. -/
def hmacDemo : String → String → String := fun secret payload => secret ++ ":" ++ payload

/-- A concrete successful `charge.success` payload with reference `ref1` and
metadata bookingId `b1`. -/
def successPayload : WebhookPayload :=
  ⟨"charge.success", ⟨"success", "ref1", ⟨some "b1", some "knotless-braids-small"⟩⟩⟩

/-- A concrete JSON parse returning `successPayload` for every body. -/
def parseDemo : String → Option WebhookPayload := fun _ => some successPayload

/-- C2: a valid-signature `charge.success` delivery whose reference is
already recorded as processed is acknowledged with 200 "Already processed",
leaves the processed set unchanged, and performs no store mutation at all
(in particular no `markProcessed` and no `updateStatus` call): only the body
parse happens. -/
theorem webhook_duplicate_reference_is_noop (hmac : String → String → String)
    (secret : String) (parse : String → Option WebhookPayload) (req : HandlerEvent)
    (processed : List String) (w : WebhookPayload)
    (hm : req.httpMethod = "POST")
    (hs : req.signatureHeader = some (hmac secret (req.body.getD "")))
    (hp : parse (req.body.getD "") = some w)
    (he : w.event = "charge.success")
    (hproc : processed.contains w.data.reference = true) :
    paystackWebhook hmac secret parse req processed
      = (⟨200, RespBody.msg "Already processed"⟩, processed,
         [DbCall.jsonParsed (req.body.getD "")]) := by
  have hmem : w.data.reference ∈ processed := by simpa using hproc
  unfold paystackWebhook verifySignature
  rw [hm, hs]
  simp [hp, he, hmem]

/-- Closed instance of C2 at a concrete duplicate delivery. -/
theorem webhook_duplicate_reference_is_noop_witness :
    paystackWebhook hmacDemo "sk" parseDemo ⟨"POST", some "sk:BODY", some "BODY"⟩ ["ref1"]
      = (⟨200, RespBody.msg "Already processed"⟩, ["ref1"], [DbCall.jsonParsed "BODY"]) :=
  webhook_duplicate_reference_is_noop hmacDemo "sk" parseDemo
    ⟨"POST", some "sk:BODY", some "BODY"⟩ ["ref1"] successPayload rfl (by decide) rfl rfl
    (by decide)

/-- C8: a POST whose signature header is absent or differs from the HMAC of
the raw body is rejected with 401; the processed set is untouched and no call
is made - in particular the body is never parsed. -/
theorem webhook_bad_signature_rejected (hmac : String → String → String)
    (secret : String) (parse : String → Option WebhookPayload) (req : HandlerEvent)
    (processed : List String)
    (hm : req.httpMethod = "POST")
    (hsig : ∀ s, req.signatureHeader = some s → s ≠ hmac secret (req.body.getD "")) :
    (paystackWebhook hmac secret parse req processed).1.statusCode = 401
    ∧ (paystackWebhook hmac secret parse req processed).2.1 = processed
    ∧ (paystackWebhook hmac secret parse req processed).2.2 = [] := by
  unfold paystackWebhook verifySignature
  rw [hm]
  cases hh : req.signatureHeader with
  | none => simp
  | some s =>
    have hne : hmac secret (req.body.getD "") ≠ s := fun e => hsig s hh e.symm
    simp [hne]

/-- Closed instance of C8 at a concrete forged signature. -/
theorem webhook_bad_signature_rejected_witness :
    (paystackWebhook hmacDemo "sk" parseDemo ⟨"POST", some "forged", some "BODY"⟩ []).1.statusCode
        = 401
    ∧ (paystackWebhook hmacDemo "sk" parseDemo ⟨"POST", some "forged", some "BODY"⟩ []).2.1 = []
    ∧ (paystackWebhook hmacDemo "sk" parseDemo ⟨"POST", some "forged", some "BODY"⟩ []).2.2 = [] :=
  webhook_bad_signature_rejected hmacDemo "sk" parseDemo
    ⟨"POST", some "forged", some "BODY"⟩ [] rfl
    (by intro s hs; cases hs; decide)

/-- C1: a first, valid, successful `charge.success` delivery is answered 200
and the reference is marked processed - but no `updateStatus` call is ever
made: the booking-confirmation step of the claim is only a commented-out
TODO in the source, so the booking is never transitioned to `confirmed`. -/
theorem webhook_success_marks_processed_but_updates_no_booking :
    paystackWebhook hmacDemo "sk" parseDemo ⟨"POST", some "sk:BODY", some "BODY"⟩ []
      = (⟨200, RespBody.msgRef "Payment processed successfully" "ref1"⟩, ["ref1"],
         [DbCall.jsonParsed "BODY", DbCall.markProcessed "ref1"])
    ∧ ((paystackWebhook hmacDemo "sk" parseDemo ⟨"POST", some "sk:BODY", some "BODY"⟩ []).2.2.all
        fun c => !c.isUpdateStatus) = true := by
  decide

/-- C10: a create-payment POST whose parsed body has non-empty email,
bookingId and serviceId but `amount = 0` is rejected 400 "Missing required
fields" with no outbound call: the truthiness test `!amount` treats 0 as
missing. -/
theorem createPayment_zero_amount_is_missing_field
    (parse : String → Option CreatePaymentRequest)
    (fetchResp : Option PaystackInitResponse) (nowMs : Nat) (req : HandlerEvent)
    (r : CreatePaymentRequest)
    (hm : req.httpMethod = "POST")
    (hp : parse (req.body.getD "\x7b\x7d") = some r)
    (hemail : r.email ≠ "") (hbid : r.bookingId ≠ "") (hsid : r.serviceId ≠ "")
    (hamount : r.amount = 0) :
    createPayment parse fetchResp nowMs req
      = (⟨400, RespBody.err "Missing required fields"⟩, []) := by
  unfold createPayment
  rw [hm]
  simp [hp, hamount]

/-- Closed instance of C10: zero amount with every other field present. -/
theorem createPayment_zero_amount_is_missing_field_witness :
    createPayment
        (fun _ => some ⟨"a@b.c", 0, "b1", "knotless-braids-small", "Small Knotless Braids", "Ada"⟩)
        none 1700000000000 ⟨"POST", none, some "raw"⟩
      = (⟨400, RespBody.err "Missing required fields"⟩, []) :=
  createPayment_zero_amount_is_missing_field
    (fun _ => some ⟨"a@b.c", 0, "b1", "knotless-braids-small", "Small Knotless Braids", "Ada"⟩)
    none 1700000000000 ⟨"POST", none, some "raw"⟩
    ⟨"a@b.c", 0, "b1", "knotless-braids-small", "Small Knotless Braids", "Ada"⟩
    rfl rfl (by decide) (by decide) (by decide) rfl

/-- C6: for a service of positive duration and well-formed bookings (each
relevant booking ends after it starts within the day), the source's
three-disjunct test is exactly the closed-open interval overlap test
`candidateStart < existingEnd && candidateEnd > existingStart` against some
same-day confirmed/pending booking, with the buffer added after the
candidate's duration and after the existing booking's end.  In particular a
candidate starting exactly at `existingEnd` does not conflict. -/
theorem hasBookingConflict_iff_interval_overlap (date : JSDate) (startTime : String)
    (durationMinutes : Nat) (existingBookings : List Booking) (bufferMinutes : Nat)
    (hdur : 0 < durationMinutes)
    (hwf : ∀ b ∈ existingBookings,
      b.startTime.isoDate = date.isoDate →
      (b.bookingStatus = BookingStatus.confirmed ∨ b.bookingStatus = BookingStatus.pending) →
      b.startTime.hours * 60 + b.startTime.minutes
        < b.endTime.hours * 60 + b.endTime.minutes) :
    hasBookingConflict date startTime durationMinutes existingBookings bufferMinutes = true
      ↔ ∃ b ∈ existingBookings,
          b.startTime.isoDate = date.isoDate
          ∧ (b.bookingStatus = BookingStatus.confirmed
              ∨ b.bookingStatus = BookingStatus.pending)
          ∧ timeToMinutes startTime
              < b.endTime.hours * 60 + b.endTime.minutes + bufferMinutes
          ∧ timeToMinutes startTime + durationMinutes + bufferMinutes
              > b.startTime.hours * 60 + b.startTime.minutes := by
  unfold hasBookingConflict
  simp only [List.any_eq_true, List.mem_filter, Bool.and_eq_true, Bool.or_eq_true,
    decide_eq_true_eq]
  constructor
  · rintro ⟨b, ⟨hb, hdate, hstat⟩, hov⟩
    refine ⟨b, hb, hdate, hstat, ?_⟩
    have hlt := hwf b hb hdate hstat
    omega
  · rintro ⟨b, hb, hdate, hstat, h1, h2⟩
    refine ⟨b, ⟨hb, hdate, hstat⟩, ?_⟩
    have hlt := hwf b hb hdate hstat
    omega

/-- Closed instance of C6 against the Monday 09:00-11:00 confirmed booking:
with a 30-minute buffer the occupied window reaches 11:30, and the iff
relates the code's verdict for candidate "11:30" to interval overlap (both
sides false here: the candidate starts exactly at the end of the window). -/
theorem hasBookingConflict_iff_interval_overlap_witness :
    hasBookingConflict monday20261012 "11:30" 60 [mondayBooking] 30 = true
      ↔ ∃ b ∈ [mondayBooking],
          b.startTime.isoDate = monday20261012.isoDate
          ∧ (b.bookingStatus = BookingStatus.confirmed
              ∨ b.bookingStatus = BookingStatus.pending)
          ∧ timeToMinutes "11:30" < b.endTime.hours * 60 + b.endTime.minutes + 30
          ∧ timeToMinutes "11:30" + 60 + 30 > b.startTime.hours * 60 + b.startTime.minutes :=
  hasBookingConflict_iff_interval_overlap monday20261012 "11:30" 60 [mondayBooking] 30
    (by decide) (by decide)

/-- A digit character is not the colon separator. -/
theorem isDig_ne_colon {c : Char} (h : isDig c = true) : (c == ':') = false := by
  have hm : c ∈ digitChars := by simpa [isDig] using h
  fin_cases hm <;> decide

/-- The numeric value of a digit character is below ten. -/
theorem digitVal_lt_ten {c : Char} (h : isDig c = true) : digitVal c < 10 := by
  have hm : c ∈ digitChars := by simpa [isDig] using h
  fin_cases hm <;> decide

/-- Rendering the value of a digit character gives the character back. -/
theorem digitChar_digitVal {c : Char} (h : isDig c = true) : digitChar (digitVal c) = c := by
  have hm : c ∈ digitChars := by simpa [isDig] using h
  fin_cases hm <;> decide

/-- Splitting a five-character "HH:MM" shape at the colon yields the two
two-character pieces. -/
theorem splitOnColon_hhmm (a b d e : Char) (ha : (a == ':') = false)
    (hb : (b == ':') = false) (hd : (d == ':') = false) (he : (e == ':') = false) :
    splitOnColon [a, b, ':', d, e] = [[a, b], [d, e]] := by
  simp [splitOnColon, ha, hb, hd, he]

/-- Folding two decimal digits. -/
theorem digitsToNat_pair (x y : Char) :
    digitsToNat [x, y] = 10 * digitVal x + digitVal y := by
  simp [digitsToNat, List.foldl]
  ring

/-- One-digit rendering. -/
theorem natDigits_small {n : Nat} (h : n < 10) : natDigits n = [digitChar n] := by
  unfold natDigits
  cases n with
  | zero => rfl
  | succ k => simp [natDigitsAux, h]

/-- Two-digit rendering. -/
theorem natDigits_two {n : Nat} (h10 : 10 ≤ n) (h100 : n < 100) :
    natDigits n = [digitChar (n / 10), digitChar (n % 10)] := by
  obtain ⟨k, rfl⟩ : ∃ k, n = k + 10 := ⟨n - 10, by omega⟩
  show natDigitsAux (k + 10) (k + 10) = _
  have h1 : k + 10 = (k + 9) + 1 := by omega
  rw [h1]
  simp only [natDigitsAux, show ¬(k + 9 + 1 < 10) from by omega, if_false]
  have h2 : k + 9 = (k + 8) + 1 := by omega
  rw [h2]
  simp only [natDigitsAux, show (k + 8 + 1 + 1) / 10 < 10 from by omega, if_true]
  rfl

/-- Zero-padding the decimal rendering of `10 * va + vb` with both digits
below ten produces exactly the two digit characters. -/
theorem padStart2_natDigits (va vb : Nat) (hva : va < 10) (hvb : vb < 10) :
    padStart2 (natDigits (10 * va + vb)) = [digitChar va, digitChar vb] := by
  rcases Nat.eq_zero_or_pos va with h0 | hpos
  · subst h0
    rw [natDigits_small (by omega)]
    simp [padStart2]
    rfl
  · have h10 : 10 ≤ 10 * va + vb := by omega
    have h100 : 10 * va + vb < 100 := by omega
    rw [natDigits_two h10 h100]
    have hdiv : (10 * va + vb) / 10 = va := by omega
    have hmod : (10 * va + vb) % 10 = vb := by omega
    rw [hdiv, hmod]
    simp [padStart2]

/-- C7: on every valid zero-padded "HH:MM" string (hours 00-23, minutes
00-59), `minutesToTime` inverts `timeToMinutes`. -/
theorem minutesToTime_timeToMinutes_roundtrip (t : String)
    (h : isValidHHMM t = true) : minutesToTime (timeToMinutes t) = t := by
  obtain ⟨cs⟩ := t
  rcases cs with _ | ⟨a, _ | ⟨b, _ | ⟨c, _ | ⟨d, _ | ⟨e, _ | ⟨f, rest⟩⟩⟩⟩⟩⟩
  · simp [isValidHHMM] at h
  · simp [isValidHHMM] at h
  · simp [isValidHHMM] at h
  · simp [isValidHHMM] at h
  · simp [isValidHHMM] at h
  · simp only [isValidHHMM, Bool.and_eq_true, beq_iff_eq, decide_eq_true_eq] at h
    obtain ⟨⟨⟨⟨⟨⟨ha, hb⟩, hc⟩, hd⟩, he⟩, hH⟩, hM⟩ := h
    subst hc
    have hta : (a == ':') = false := isDig_ne_colon ha
    have htb : (b == ':') = false := isDig_ne_colon hb
    have htd : (d == ':') = false := isDig_ne_colon hd
    have hte : (e == ':') = false := isDig_ne_colon he
    have hsplit : timeToMinutes ⟨[a, b, ':', d, e]⟩
        = (10 * digitVal a + digitVal b) * 60 + (10 * digitVal d + digitVal e) := by
      unfold timeToMinutes
      rw [show String.data ⟨[a, b, ':', d, e]⟩ = [a, b, ':', d, e] from rfl]
      rw [splitOnColon_hhmm a b d e hta htb htd hte]
      show digitsToNat [a, b] * 60 + digitsToNat [d, e] = _
      rw [digitsToNat_pair, digitsToNat_pair]
    rw [hsplit]
    have hvb := digitVal_lt_ten hb
    have hve := digitVal_lt_ten he
    have hdiv : ((10 * digitVal a + digitVal b) * 60 + (10 * digitVal d + digitVal e)) / 60
        = 10 * digitVal a + digitVal b := by omega
    have hmod : ((10 * digitVal a + digitVal b) * 60 + (10 * digitVal d + digitVal e)) % 60
        = 10 * digitVal d + digitVal e := by omega
    unfold minutesToTime
    rw [hdiv, hmod]
    rw [padStart2_natDigits _ _ (digitVal_lt_ten ha) hvb]
    rw [padStart2_natDigits _ _ (digitVal_lt_ten hd) hve]
    rw [digitChar_digitVal ha, digitChar_digitVal hb, digitChar_digitVal hd,
      digitChar_digitVal he]
    rfl
  · simp [isValidHHMM] at h

/-- Closed instance of C7 at "09:05". -/
theorem minutesToTime_timeToMinutes_roundtrip_witness :
    isValidHHMM "09:05" = true ∧ minutesToTime (timeToMinutes "09:05") = "09:05" :=
  ⟨by decide, minutesToTime_timeToMinutes_roundtrip "09:05" (by decide)⟩
